import Mathlib

/-!
# Service worker `sw.js`: routing, caching strategies and cache lifecycle

A shallow embedding of `src/sw.js`.

* A `Response` is its status, status text and body; `response.ok` is the
  platform's `200 ≤ status ≤ 299`.
* A `Request` carries `request.url`, the `pathname` that `new URL(request.url)`
  yields, `request.destination` and `request.method`.  Its cache key is the
  method together with the URL.
* `cache.put` is rejected by the platform, and stores nothing, for a request
  that is not a GET over http or https and for a response with status 206;
  `cache.addAll` is rejected, and stores nothing, when one of its URLs is not
  http or https or one of the fetched responses is missing, has no success
  status or has status 206.
* `CacheStorage` (the global `caches`) is the ordered list of named caches, in
  creation order, which is the order `caches.keys()` and `caches.match` use.
* One network attempt `fetch(request)` is an `Option Response`: `none` is a
  rejected fetch, `some r` a response of any status.
* An `async` function is modelled by the state reached once every promise it
  started has settled (the writes `cache.put` that are not awaited included),
  and a value that may be `undefined` by an `Option`.
-/

namespace ServiceWorker

/-! ## Constants of the source -/

def CACHE_NAME : String := "postgresql-brasil-v1.0.0"
def STATIC_CACHE_NAME : String := "postgresql-static-v1.0.0"
def DYNAMIC_CACHE_NAME : String := "postgresql-dynamic-v1.0.0"

/-- The list `networkFirst` of the source: path prefixes always fetched from the network. -/
def networkFirst : List String := ["/api/", "/contact", "/form"]

/-! ## Strings -/

/-- JavaScript `s.startsWith(p)`. -/
def startsWith (s p : String) : Bool := p.toList.isPrefixOf s.toList

/-- JavaScript `s.endsWith(p)`. -/
def endsWith (s p : String) : Bool := p.toList.isSuffixOf s.toList

/-- The scheme of a URL: what stands before its first colon. -/
def scheme (url : String) : String := String.mk (url.toList.takeWhile (fun ch => ch ≠ ':'))

/-! ## Data model -/

structure Response where
  status : Nat
  statusText : String
  body : String
deriving DecidableEq, Repr

/-- The getter `response.ok`. -/
def Response.ok (r : Response) : Bool := decide (200 ≤ r.status) && decide (r.status ≤ 299)

/-- The method `response.clone()`: a copy with the same status, status text and body. -/
def Response.clone (r : Response) : Response := r

structure Request where
  url : String
  pathname : String
  destination : String
  method : String := "GET"
deriving DecidableEq, Repr

/-- The identity of a request in a cache: its method and its URL. -/
structure RequestKey where
  method : String
  url : String
deriving DecidableEq, Repr

/-- The identity under which a request is stored and looked up. -/
def Request.key (r : Request) : RequestKey := { method := r.method, url := r.url }

/-- The key of the GET request for a URL. -/
def getKey (url : String) : RequestKey := { method := "GET", url := url }

/-- Whether the platform accepts `cache.put(request, response)`: the request is a GET over
http or https and the response is not a partial one (status 206); otherwise the promise of
`put` is rejected and nothing is stored. -/
def putAccepted (k : RequestKey) (r : Response) : Bool :=
  (decide (scheme k.url = "http") || decide (scheme k.url = "https")) &&
    decide (k.method = "GET") && decide (r.status ≠ 206)

/-- One cache: its entries in insertion order. -/
abbrev Cache := List (RequestKey × Response)

/-- The global `caches`: the named caches in creation order. -/
abbrev CacheStorage := List (String × Cache)

/-- The method `cache.match(request)`. -/
def Cache.match (c : Cache) (k : RequestKey) : Option Response :=
  (c.find? (fun e => e.1 = k)).map (fun e => e.2)

/-- The method `cache.put(request, response)`: when the platform accepts the pair, the
entry of the key is replaced; when it rejects it, the cache is left as it is. -/
def Cache.put (c : Cache) (k : RequestKey) (r : Response) : Cache :=
  if putAccepted k r then c.filter (fun e => e.1 ≠ k) ++ [(k, r)] else c

/-- The method `caches.keys()`. -/
def CacheStorage.keys (s : CacheStorage) : List String := s.map (fun p => p.1)

/-- The method `caches.has(name)`. -/
def CacheStorage.has (s : CacheStorage) (name : String) : Bool := s.any (fun p => p.1 = name)

/-- The method `caches.open(name)`: the cache is created, empty, when it does not exist. -/
def CacheStorage.open (s : CacheStorage) (name : String) : CacheStorage :=
  if s.has name then s else s ++ [(name, [])]

/-- The entries of the cache called `name` (none when there is no such cache). -/
def CacheStorage.entries (s : CacheStorage) (name : String) : Cache :=
  match s.find? (fun p => p.1 = name) with
  | some p => p.2
  | none => []

/-- The method `caches.match(request)`: the first hit, caches taken in creation order. -/
def CacheStorage.match (s : CacheStorage) (k : RequestKey) : Option Response :=
  s.findSome? (fun p => Cache.match p.2 k)

/-- The effect of `cache.put(request, response)` on the cache called `name`. -/
def CacheStorage.put (s : CacheStorage) (name : String) (k : RequestKey) (r : Response) :
    CacheStorage :=
  s.map (fun p => if p.1 = name then (p.1, Cache.put p.2 k r) else p)

/-- The method `caches.delete(name)`. -/
def CacheStorage.delete (s : CacheStorage) (name : String) : CacheStorage :=
  s.filter (fun p => p.1 ≠ name)

/-! ## The three strategies -/

/-- What a strategy call leaves behind: the value its promise resolves to
(`none` is `undefined`), the caches afterwards, and how many times `fetch` was called. -/
structure Outcome where
  response : Option Response
  caches : CacheStorage
  fetches : Nat
deriving DecidableEq, Repr

/-- The response built in the `catch` of `cacheFirstStrategy`. -/
def offlineResponse : Response :=
  { status := 503, statusText := "Service Unavailable", body := "Conteúdo não disponível offline" }

/-- The response built in the `catch` of `networkFirstStrategy`. -/
def unavailableResponse : Response :=
  { status := 503, statusText := "Service Unavailable", body := "Conteúdo não disponível" }

/-- The function `cacheFirstStrategy(request)`, with `net` the outcome of `fetch(request)`. -/
def cacheFirstStrategy (request : Request) (caches : CacheStorage) (net : Option Response) :
    Outcome :=
  match caches.match request.key with
  | some cachedResponse => { response := some cachedResponse, caches := caches, fetches := 0 }
  | none =>
    match net with
    | some networkResponse =>
      if networkResponse.ok then
        { response := some networkResponse
          caches := (caches.open DYNAMIC_CACHE_NAME).put DYNAMIC_CACHE_NAME request.key
            networkResponse.clone
          fetches := 1 }
      else
        { response := some networkResponse, caches := caches, fetches := 1 }
    | none => { response := some offlineResponse, caches := caches, fetches := 1 }

/-- The function `networkFirstStrategy(request)`, with `net` the outcome of `fetch(request)`. -/
def networkFirstStrategy (request : Request) (caches : CacheStorage) (net : Option Response) :
    Outcome :=
  match net with
  | some networkResponse =>
    if networkResponse.ok then
      { response := some networkResponse
        caches := (caches.open DYNAMIC_CACHE_NAME).put DYNAMIC_CACHE_NAME request.key
          networkResponse.clone
        fetches := 1 }
    else
      { response := some networkResponse, caches := caches, fetches := 1 }
  | none =>
    match caches.match request.key with
    | some cachedResponse => { response := some cachedResponse, caches := caches, fetches := 1 }
    | none => { response := some unavailableResponse, caches := caches, fetches := 1 }

/-- The function `staleWhileRevalidateStrategy(request)`, with `net` the outcome of
`fetch(request)`.  The dynamic cache is opened first; `fetchPromise` resolves to the
network response, or to `cachedResponse` when the fetch is rejected; the function
resolves to `cachedResponse || fetchPromise`. -/
def staleWhileRevalidateStrategy (request : Request) (caches : CacheStorage)
    (net : Option Response) : Outcome :=
  let opened := caches.open DYNAMIC_CACHE_NAME
  let cachedResponse := Cache.match (opened.entries DYNAMIC_CACHE_NAME) request.key
  let fetchPromise : Option Response × CacheStorage :=
    match net with
    | some networkResponse =>
      if networkResponse.ok then
        (some networkResponse, opened.put DYNAMIC_CACHE_NAME request.key networkResponse.clone)
      else
        (some networkResponse, opened)
    | none => (cachedResponse, opened)
  { response := match cachedResponse with
      | some c => some c
      | none => fetchPromise.1
    caches := fetchPromise.2
    fetches := 1 }

/-! ## The fetch handler -/

inductive Strategy where
  | NetworkFirst
  | CacheFirst
  | StaleWhileRevalidate
deriving DecidableEq, Repr

/-- The strategy function behind each name. -/
def Strategy.run : Strategy → Request → CacheStorage → Option Response → Outcome
  | .NetworkFirst => networkFirstStrategy
  | .CacheFirst => cacheFirstStrategy
  | .StaleWhileRevalidate => staleWhileRevalidateStrategy

/-- What the fetch handler did: the strategy it called (if any), the argument of
`event.respondWith` (`none`: `respondWith` was never invoked), the caches afterwards and
the number of calls of `fetch`. -/
structure Handled where
  strategy : Option Strategy
  respondWith : Option (Option Response)
  caches : CacheStorage
  fetches : Nat
deriving DecidableEq, Repr

/-- The handler calls one strategy and hands its promise to `event.respondWith`. -/
def respondWithStrategy (s : Strategy) (request : Request) (caches : CacheStorage)
    (net : Option Response) : Handled :=
  let o := s.run request caches net
  { strategy := some s, respondWith := some o.response, caches := o.caches, fetches := o.fetches }

/-- The listener of the `fetch` event. -/
def fetchHandler (request : Request) (caches : CacheStorage) (net : Option Response) : Handled :=
  if !(startsWith request.url "http") then
    { strategy := none, respondWith := none, caches := caches, fetches := 0 }
  else if networkFirst.any (fun pattern => startsWith request.pathname pattern) then
    respondWithStrategy .NetworkFirst request caches net
  else if request.destination = "style" ||
      request.destination = "script" ||
      request.destination = "image" ||
      endsWith request.pathname ".css" ||
      endsWith request.pathname ".js" ||
      endsWith request.pathname ".json" then
    respondWithStrategy .CacheFirst request caches net
  else
    respondWithStrategy .StaleWhileRevalidate request caches net

/-! ## Lifecycle: install and activate -/

/-- The list `staticAssets` of the source: the files cached at install. -/
def staticAssets : List String :=
  [ "/",
    "/index.html",
    "/style.css",
    "/script.js",
    "/manifest.json",
    "data:image/svg+xml,<svg xmlns=\"http://www.w3.org/2000/svg\" viewBox=\"0 0 24 24\" fill=\"%23336791\"><path d=\"M23.111 5.441c-.248-2.135-1.735-3.928-3.797-4.584C17.678.375 15.99.057 14.269.057c-1.721 0-3.409.318-5.045.8C7.162 1.513 5.675 3.306 5.427 5.441c-.248 2.135.46 4.254 1.806 5.736.598.659 1.306 1.181 2.089 1.537v7.229c0 .829.672 1.5 1.5 1.5h4.356c.828 0 1.5-.671 1.5-1.5v-7.229c.783-.356 1.491-.878 2.089-1.537 1.346-1.482 2.054-3.601 1.806-5.736z\"/></svg>" ]

/-- The state in which a promise settles. -/
inductive Settled where
  | fulfilled
  | rejected
deriving DecidableEq, Repr

/-- The URL a manifest entry stands for in a worker served from `origin`: a path is
resolved against the origin, an absolute URL (the `data:` entry) is itself. -/
def resolveUrl (origin asset : String) : String :=
  if startsWith asset "/" then origin ++ asset else asset

/-- Whether adding one URL works: its scheme is http or https, it was fetched, and the
response has a success status other than 206. -/
def assetAdded (fetchAsset : String → Option Response) (url : String) : Bool :=
  (decide (scheme url = "http") || decide (scheme url = "https")) &&
    match fetchAsset url with
    | some r => r.ok && decide (r.status ≠ 206)
    | none => false

/-- The method `cache.addAll(urls)` on the cache called `name`: every URL is fetched with a
GET; when one of them cannot be added the promise is rejected and nothing is written,
otherwise every response is stored under the key of its request. -/
def addAll (caches : CacheStorage) (name : String) (urls : List String)
    (fetchAsset : String → Option Response) : Except String CacheStorage :=
  if urls.all (assetAdded fetchAsset) then
    .ok (urls.foldl
      (fun st url =>
        match fetchAsset url with
        | some r => st.put name (getKey url) r
        | none => st)
      caches)
  else
    .error "TypeError"

/-- What the install handler leaves behind: the state of the promise handed to
`event.waitUntil`, the caches, and whether `self.skipWaiting()` was called. -/
structure Installed where
  waitUntil : Settled
  caches : CacheStorage
  skipWaiting : Bool
deriving DecidableEq, Repr

/-- The listener of the `install` event, in a worker served from `origin`.  The chain
handed to `event.waitUntil` is `caches.open(..).then(addAll).then(skipWaiting).catch(log)`:
a rejection of `addAll` skips the second `then` and is taken by the `catch`, whose handler
logs and returns normally. -/
def installHandler (caches : CacheStorage) (origin : String)
    (fetchAsset : String → Option Response) : Installed :=
  let opened := caches.open STATIC_CACHE_NAME
  match addAll opened STATIC_CACHE_NAME (staticAssets.map (resolveUrl origin)) fetchAsset with
  | .ok filled => { waitUntil := .fulfilled, caches := filled, skipWaiting := true }
  | .error _ => { waitUntil := .fulfilled, caches := opened, skipWaiting := false }

/-- What the activate handler leaves behind: the state of the promise handed to
`event.waitUntil`, the caches, and whether `self.clients.claim()` was called. -/
structure Activated where
  waitUntil : Settled
  caches : CacheStorage
  claimed : Bool
deriving DecidableEq, Repr

/-- The cleanup of the activate handler, for given current names: every name of
`caches.keys()` that is neither of the two is passed to `caches.delete`. -/
def activateCleanup (staticName dynamicName : String) (caches : CacheStorage) : CacheStorage :=
  caches.keys.foldl
    (fun st cacheName =>
      if cacheName ≠ staticName ∧ cacheName ≠ dynamicName then st.delete cacheName else st)
    caches

/-- The listener of the `activate` event. -/
def activateHandler (caches : CacheStorage) : Activated :=
  { waitUntil := .fulfilled
    caches := activateCleanup STATIC_CACHE_NAME DYNAMIC_CACHE_NAME caches
    claimed := true }

/-! ## Periodic cleanup -/

/-- JavaScript `s.includes(sub)`. -/
def includes (s sub : String) : Bool := s.toList.tails.any (fun t => sub.toList.isPrefixOf t)

/-- One run of the callback given to `setInterval`, for given current names: every name of
`caches.keys()` that includes "-v" and is neither of the two is passed to `caches.delete`. -/
def periodicCleanup (staticName dynamicName : String) (caches : CacheStorage) : CacheStorage :=
  caches.keys.foldl
    (fun st cacheName =>
      if includes cacheName "-v" = true ∧ cacheName ≠ staticName ∧ cacheName ≠ dynamicName then
        st.delete cacheName
      else st)
    caches

/-- The callback given to `setInterval`, with the names of the source. -/
def cleanupCallback (caches : CacheStorage) : CacheStorage :=
  periodicCleanup STATIC_CACHE_NAME DYNAMIC_CACHE_NAME caches

/-! ## Push notifications -/

/-- A JSON value, as `event.data.json()` returns it. -/
inductive Json where
  | null
  | bool (b : Bool)
  | num (n : Int)
  | str (s : String)
  | arr (items : List Json)
  | obj (fields : List (String × Json))

/-- The payload `event.data` of a push event: its text either fails to parse as JSON or
parses to a value. -/
inductive PushMessageData where
  | invalid (text : String)
  | parsed (value : Json)

/-- The method `event.data.json()`: a `SyntaxError` is thrown for a text that is not JSON. -/
def PushMessageData.json : PushMessageData → Except String Json
  | .invalid _ => .error "SyntaxError"
  | .parsed v => .ok v

/-- JavaScript truthiness of a value. -/
def Json.truthy : Json → Bool
  | .null => false
  | .bool b => b
  | .num n => decide (n ≠ 0)
  | .str s => decide (s ≠ "")
  | .arr _ => true
  | .obj _ => true

/-- The property read `data.field` for one of the names `title`, `body`, `data`: a
`TypeError` is thrown on `null`, an object gives its field or `undefined` (`none`), every
other value gives `undefined`. -/
def Json.get (v : Json) (field : String) : Except String (Option Json) :=
  match v with
  | .null => .error "TypeError"
  | .obj fields => .ok ((fields.find? (fun f => f.1 = field)).map (fun f => f.2))
  | _ => .ok none

/-- JavaScript `value || dflt`, with `none` for `undefined`. -/
def orDefault (value : Option Json) (dflt : Json) : Json :=
  match value with
  | some v => if v.truthy then v else dflt
  | none => dflt

structure NotificationAction where
  action : String
  title : String
deriving DecidableEq, Repr

/-- The arguments of `self.registration.showNotification`. -/
structure Notification where
  title : Json
  body : Json
  icon : String
  badge : String
  data : Json
  actions : List NotificationAction

/-- The listener of the `push` event: an error is an exception thrown by the listener,
`none` is a return without a notification. -/
def pushHandler (data : Option PushMessageData) : Except String (Option Notification) :=
  match data with
  | none => .ok none
  | some payload =>
    match payload.json with
    | .error e => .error e
    | .ok data =>
      match data.get "title", data.get "body", data.get "data" with
      | .ok title, .ok body, .ok extra =>
        .ok (some
          { title := orDefault title (.str "PostgreSQL Brasil")
            body := orDefault body (.str "Você tem uma nova notificação")
            icon := "/icon-192.png"
            badge := "/badge-72.png"
            data := orDefault extra (.obj [])
            actions := [{ action := "open", title := "Abrir" },
              { action := "close", title := "Fechar" }] })
      | .error e, _, _ => .error e
      | _, .error e, _ => .error e
      | _, _, .error e => .error e

/-! ## Statements of the specification, in its own words -/

/-- The routing rule as the specification words it (first match wins). -/
def classifySpec (path destination : String) : Strategy :=
  if startsWith path "/api/" = true ∨ startsWith path "/contact" = true ∨
      startsWith path "/form" = true then
    .NetworkFirst
  else if destination = "style" ∨ destination = "script" ∨ destination = "image" ∨
      endsWith path ".css" = true ∨ endsWith path ".js" = true ∨
      endsWith path ".json" = true then
    .CacheFirst
  else
    .StaleWhileRevalidate

/-- A key is held by some cache of the storage. -/
def CacheStorage.holds (s : CacheStorage) (k : RequestKey) : Prop :=
  ∃ p ∈ s, Cache.match p.2 k ≠ none

/-- The caches created before the one called `name` (all of them when there is none). -/
def CacheStorage.before (s : CacheStorage) (name : String) : CacheStorage :=
  s.takeWhile (fun p => p.1 ≠ name)

/-- The names a cleanup deleted: those of `before` that `after` no longer has. -/
def deletedNames (before after : CacheStorage) : List String :=
  before.keys.filter (fun n => !after.has n)

/-! ## Lemmas on caches -/

theorem Cache.put_of_accepted (c : Cache) (k : RequestKey) (r : Response)
    (hacc : putAccepted k r = true) :
    Cache.put c k r = c.filter (fun e => e.1 ≠ k) ++ [(k, r)] := by
  simp [Cache.put, hacc]

theorem Cache.put_of_rejected (c : Cache) (k : RequestKey) (r : Response)
    (hrej : putAccepted k r = false) : Cache.put c k r = c := by
  simp [Cache.put, hrej]

theorem Cache.match_put_self (c : Cache) (k : RequestKey) (r : Response)
    (hacc : putAccepted k r = true) : Cache.match (Cache.put c k r) k = some r := by
  have h : (c.filter (fun e => e.1 ≠ k)).find? (fun e => e.1 = k) = none := by
    rw [List.find?_eq_none]
    intro x hx
    simp only [List.mem_filter, decide_eq_true_eq] at hx
    simpa using hx.2
  rw [Cache.put_of_accepted c k r hacc]
  simp [Cache.match, List.find?_append, h]

theorem Cache.match_put_other (c : Cache) (k k' : RequestKey) (r : Response) (h : k' ≠ k) :
    Cache.match (Cache.put c k r) k' = Cache.match c k' := by
  by_cases hacc : putAccepted k r = true
  · have hp : (fun e : RequestKey × Response =>
        decide (decide (e.1 ≠ k) = true ∧ decide (e.1 = k') = true)) =
        (fun e => decide (e.1 = k')) := by
      funext e
      by_cases he : e.1 = k'
      · have hk : e.1 ≠ k := fun h' => h (he.symm.trans h')
        simp [he, hk, h]
      · simp [he]
    have hlast : List.find? (fun e : RequestKey × Response => decide (e.1 = k')) [(k, r)]
        = none := by
      simp [List.find?_cons, h.symm]
    rw [Cache.put_of_accepted c k r hacc]
    simp only [Cache.match, List.find?_append, List.find?_filter, hp, hlast, Option.or_none]
  · rw [Cache.put_of_rejected c k r (by simpa using hacc)]

theorem CacheStorage.has_append_self (s : CacheStorage) (n : String) (c : Cache) :
    CacheStorage.has (s ++ [(n, c)]) n = true := by
  simp [CacheStorage.has]

theorem CacheStorage.has_open (s : CacheStorage) (n : String) : (s.open n).has n = true := by
  unfold CacheStorage.open
  by_cases h : s.has n = true
  · simp [h]
  · simp only [h, if_false]
    exact CacheStorage.has_append_self s n []

theorem CacheStorage.open_of_has (s : CacheStorage) (n : String) (h : s.has n = true) :
    s.open n = s := by
  simp [CacheStorage.open, h]

theorem CacheStorage.has_put (s : CacheStorage) (n m : String) (k : RequestKey) (r : Response) :
    (s.put n k r).has m = s.has m := by
  induction s with
  | nil => rfl
  | cons p t ih =>
    simp only [CacheStorage.has, CacheStorage.put, List.map_cons, List.any_cons] at ih ⊢
    rw [ih]
    by_cases hp : p.1 = n <;> simp [hp]

theorem CacheStorage.entries_put (s : CacheStorage) (n : String) (k : RequestKey) (r : Response)
    (h : s.has n = true) : (s.put n k r).entries n = Cache.put (s.entries n) k r := by
  induction s with
  | nil => simp [CacheStorage.has] at h
  | cons p t ih =>
    by_cases hp : p.1 = n
    · simp [CacheStorage.entries, CacheStorage.put, List.find?_cons, hp]
    · have ht : CacheStorage.has t n = true := by
        simpa [CacheStorage.has, hp] using h
      have := ih ht
      simp only [CacheStorage.entries, CacheStorage.put, List.map_cons, hp, if_false,
        List.find?_cons, decide_False] at this ⊢
      exact this

theorem CacheStorage.entries_open (s : CacheStorage) (n : String) :
    (s.open n).entries n = s.entries n := by
  unfold CacheStorage.open
  by_cases h : s.has n = true
  · simp [h]
  · simp only [h, if_false]
    have hnone : s.find? (fun p => decide (p.1 = n)) = none := by
      rw [List.find?_eq_none]
      intro x hx hxn
      apply h
      simp only [CacheStorage.has, List.any_eq_true]
      exact ⟨x, hx, hxn⟩
    simp [CacheStorage.entries, List.find?_append, hnone]

/-- After an accepted write-back into the cache called `n`, that cache maps the key to the
response. -/
theorem CacheStorage.match_entries_open_put (s : CacheStorage) (n : String) (k : RequestKey)
    (r : Response) (hacc : putAccepted k r = true) :
    Cache.match (((s.open n).put n k r).entries n) k = some r := by
  rw [CacheStorage.entries_put _ _ _ _ (CacheStorage.has_open s n)]
  exact Cache.match_put_self _ k r hacc

/-- A rejected `put` leaves every cache as it is. -/
theorem CacheStorage.put_eq_self_of_rejected (s : CacheStorage) (n : String) (k : RequestKey)
    (r : Response) (hrej : putAccepted k r = false) : s.put n k r = s := by
  unfold CacheStorage.put
  conv_rhs => rw [← List.map_id s]
  apply List.map_congr_left
  intro p _
  by_cases hp : p.1 = n
  · rw [if_pos hp, Cache.put_of_rejected p.2 k r hrej]
    rfl
  · rw [if_neg hp]
    rfl

theorem CacheStorage.match_eq_none_of_not_holds (s : CacheStorage) (k : RequestKey)
    (h : ¬ s.holds k) : s.match k = none := by
  simp only [CacheStorage.match, List.findSome?_eq_none_iff]
  intro p hp
  by_contra hne
  exact h ⟨p, hp, hne⟩

theorem CacheStorage.match_isSome_of_holds (s : CacheStorage) (k : RequestKey)
    (h : s.holds k) : ∃ c, s.match k = some c ∧ ∃ p ∈ s, Cache.match p.2 k = some c := by
  obtain ⟨p, hp, hne⟩ := h
  cases hm : s.match k with
  | none =>
    simp only [CacheStorage.match, List.findSome?_eq_none_iff] at hm
    exact absurd (hm p hp) hne
  | some c =>
    refine ⟨c, rfl, ?_⟩
    simp only [CacheStorage.match] at hm
    obtain ⟨q, hq, hqc⟩ := List.exists_of_findSome?_eq_some hm
    exact ⟨q, hq, hqc⟩

/-! ## Routing -/

theorem fetchHandler_eq_classifySpec (request : Request) (caches : CacheStorage)
    (net : Option Response) (h : startsWith request.url "http" = true) :
    fetchHandler request caches net =
      respondWithStrategy (classifySpec request.pathname request.destination)
        request caches net := by
  unfold fetchHandler classifySpec
  simp only [h, Bool.not_true, Bool.false_eq_true, if_false, networkFirst, List.any_cons,
    List.any_nil, Bool.or_false, Bool.or_eq_true, decide_eq_true_eq, or_assoc]
  split_ifs <;> rfl

/-- C1: for a request whose URL starts with "http" the fetch handler calls exactly one
strategy, the one the first-match rules give from the path and the destination alone:
NetworkFirst for a path starting with "/api/", "/contact" or "/form", else CacheFirst for
destination style, script or image or a path ending in ".css", ".js" or ".json", else
StaleWhileRevalidate; the path "/api/data.json" goes to NetworkFirst. -/
theorem C1_fetch_handler_first_match_routing (request : Request) (caches : CacheStorage)
    (net : Option Response) (h : startsWith request.url "http" = true) :
    fetchHandler request caches net =
        respondWithStrategy (classifySpec request.pathname request.destination)
          request caches net
      ∧ (fetchHandler request caches net).strategy =
        some (classifySpec request.pathname request.destination)
      ∧ (fetchHandler request caches net).respondWith =
        some (((classifySpec request.pathname request.destination).run request caches net).response)
      ∧ (request.pathname = "/api/data.json" →
        (fetchHandler request caches net).strategy = some Strategy.NetworkFirst) := by
  have hmain := fetchHandler_eq_classifySpec request caches net h
  refine ⟨hmain, ?_, ?_, ?_⟩
  · rw [hmain]; rfl
  · rw [hmain]; rfl
  · intro hp
    rw [hmain, hp]
    rfl

theorem C1_fetch_handler_first_match_routing_witness :
    startsWith "https://example.com/api/data.json" "http" = true ∧
    (fetchHandler
      { url := "https://example.com/api/data.json", pathname := "/api/data.json",
        destination := "" } [] none).strategy = some Strategy.NetworkFirst :=
  ⟨by decide,
    (C1_fetch_handler_first_match_routing
      { url := "https://example.com/api/data.json", pathname := "/api/data.json",
        destination := "" } [] none (by decide)).2.2.2 rfl⟩

theorem fetchHandler_passes_through (request : Request) (caches : CacheStorage)
    (net : Option Response) (h : startsWith request.url "http" = false) :
    fetchHandler request caches net =
      { strategy := none, respondWith := none, caches := caches, fetches := 0 } := by
  simp [fetchHandler, h]

/-- C2, where the code departs from it: the guard of the fetch handler tests the prefix
"http" of the URL, not its scheme.  A request for "data:text/plain,ok" is passed through
untouched, but the URL "httpx://example.com/", whose scheme is neither http nor https,
starts with "http": the handler calls `staleWhileRevalidateStrategy`, invokes `respondWith`
and the store changes (the dynamic cache is created). -/
theorem C2_prefix_guard_intercepts_other_scheme :
    scheme "httpx://example.com/" ≠ "http" ∧ scheme "httpx://example.com/" ≠ "https" ∧
    startsWith "httpx://example.com/" "http" = true ∧
    (fetchHandler { url := "httpx://example.com/", pathname := "/", destination := "" }
      [] none).strategy = some Strategy.StaleWhileRevalidate ∧
    (fetchHandler { url := "httpx://example.com/", pathname := "/", destination := "" }
      [] none).respondWith ≠ none ∧
    (fetchHandler { url := "httpx://example.com/", pathname := "/", destination := "" }
      [] none).caches ≠ [] ∧
    fetchHandler { url := "data:text/plain,ok", pathname := "text/plain,ok", destination := "" }
      [(STATIC_CACHE_NAME, [])] none =
      { strategy := none, respondWith := none, caches := [(STATIC_CACHE_NAME, [])], fetches := 0 } := by
  decide

/-! ## The strategies -/

theorem cacheFirstStrategy_responds (request : Request) (caches : CacheStorage)
    (net : Option Response) : (cacheFirstStrategy request caches net).response ≠ none := by
  unfold cacheFirstStrategy
  cases caches.match request.key with
  | some c => simp
  | none =>
    cases net with
    | none => simp
    | some r => by_cases hr : r.ok = true <;> simp [hr]

theorem networkFirstStrategy_responds (request : Request) (caches : CacheStorage)
    (net : Option Response) : (networkFirstStrategy request caches net).response ≠ none := by
  unfold networkFirstStrategy
  cases net with
  | some r => by_cases hr : r.ok = true <;> simp [hr]
  | none =>
    cases caches.match request.key with
    | some c => simp
    | none => simp

/-- C3, where the code departs from it: `cacheFirstStrategy` and `networkFirstStrategy`
always resolve to a response, but `staleWhileRevalidateStrategy` resolves to `undefined`
for "/" when the dynamic cache has no entry for it and the fetch is rejected, even with
"/" held by the static cache; the fetch handler then gives `undefined` to `respondWith`. -/
theorem C3_stale_while_revalidate_resolves_undefined :
    (∀ request caches net, (cacheFirstStrategy request caches net).response ≠ none) ∧
    (∀ request caches net, (networkFirstStrategy request caches net).response ≠ none) ∧
    (staleWhileRevalidateStrategy
      { url := "https://example.com/", pathname := "/", destination := "document" }
      [(STATIC_CACHE_NAME, [(getKey "https://example.com/", { status := 200, statusText := "OK", body := "<html>" })])]
      none).response = none ∧
    (fetchHandler
      { url := "https://example.com/", pathname := "/", destination := "document" }
      [(STATIC_CACHE_NAME, [(getKey "https://example.com/", { status := 200, statusText := "OK", body := "<html>" })])]
      none).respondWith = some none :=
  ⟨cacheFirstStrategy_responds, networkFirstStrategy_responds, by decide, by decide⟩

/-- C4, as stated, fails: a fetch that succeeds with status 500 is returned by
`networkFirstStrategy`, but the dynamic cache does not map the key to it afterwards. -/
theorem C4_counterexample_error_status_not_stored :
    (fetchHandler
      { url := "https://example.com/api/data", pathname := "/api/data", destination := "" } []
      (some { status := 500, statusText := "Internal Server Error", body := "boom" })).strategy
        = some Strategy.NetworkFirst ∧
    (networkFirstStrategy
      { url := "https://example.com/api/data", pathname := "/api/data", destination := "" } []
      (some { status := 500, statusText := "Internal Server Error", body := "boom" })).response
        = some { status := 500, statusText := "Internal Server Error", body := "boom" } ∧
    Cache.match
      ((networkFirstStrategy
        { url := "https://example.com/api/data", pathname := "/api/data", destination := "" } []
        (some { status := 500, statusText := "Internal Server Error", body := "boom" })).caches.entries
          DYNAMIC_CACHE_NAME)
      (getKey "https://example.com/api/data") = none := by
  decide

/-- C4, amended: `networkFirstStrategy` returns the network response whenever the fetch
succeeds, and when that response has a success status and the platform accepts it for
`cache.put` (a GET over http or https, status other than 206) the dynamic cache afterwards
maps the request's key to it, while a response without a success status is returned and
the caches are unchanged; when the fetch fails and some cache holds an entry for the key, a
stored entry (the first hit of `caches.match`) is returned and the caches are unchanged. -/
theorem C4_network_first_write_back_and_fallback (request : Request) (caches : CacheStorage) :
    (∀ r : Response,
      (networkFirstStrategy request caches (some r)).response = some r ∧
      (r.ok = true → putAccepted request.key r = true →
        Cache.match
          ((networkFirstStrategy request caches (some r)).caches.entries DYNAMIC_CACHE_NAME)
          request.key = some r) ∧
      (r.ok = false → (networkFirstStrategy request caches (some r)).caches = caches)) ∧
    (caches.holds request.key →
      ∃ c, caches.match request.key = some c ∧ (∃ p ∈ caches, Cache.match p.2 request.key = some c) ∧
        networkFirstStrategy request caches none =
          { response := some c, caches := caches, fetches := 1 }) := by
  refine ⟨fun r => ⟨?_, ?_, ?_⟩, ?_⟩
  · unfold networkFirstStrategy
    by_cases hr : r.ok = true <;> simp [hr]
  · intro hr hacc
    simp only [networkFirstStrategy, hr, if_true, Response.clone]
    exact CacheStorage.match_entries_open_put caches DYNAMIC_CACHE_NAME request.key r hacc
  · intro hr
    simp [networkFirstStrategy, hr]
  · intro h
    obtain ⟨c, hc, hp⟩ := CacheStorage.match_isSome_of_holds caches request.key h
    exact ⟨c, hc, hp, by simp [networkFirstStrategy, hc]⟩

theorem C4_network_first_write_back_and_fallback_witness :
    Cache.match
      ((networkFirstStrategy
        { url := "https://example.com/api/data", pathname := "/api/data", destination := "" }
        [(STATIC_CACHE_NAME, [])]
        (some { status := 200, statusText := "OK", body := "fresh" })).caches.entries
          DYNAMIC_CACHE_NAME)
      (Request.key
        { url := "https://example.com/api/data", pathname := "/api/data", destination := "" })
        = some { status := 200, statusText := "OK", body := "fresh" } ∧
    (∃ c,
      CacheStorage.match
        [(DYNAMIC_CACHE_NAME,
          [(getKey "https://example.com/api/data", { status := 200, statusText := "OK", body := "old" })])]
        (Request.key
          { url := "https://example.com/api/data", pathname := "/api/data", destination := "" })
          = some c ∧
      (∃ p ∈ ([(DYNAMIC_CACHE_NAME,
          [(getKey "https://example.com/api/data", { status := 200, statusText := "OK", body := "old" })])] :
            CacheStorage),
        Cache.match p.2
          (Request.key
            { url := "https://example.com/api/data", pathname := "/api/data", destination := "" })
          = some c) ∧
      networkFirstStrategy
        { url := "https://example.com/api/data", pathname := "/api/data", destination := "" }
        [(DYNAMIC_CACHE_NAME,
          [(getKey "https://example.com/api/data", { status := 200, statusText := "OK", body := "old" })])]
        none =
        { response := some c
          caches := [(DYNAMIC_CACHE_NAME,
            [(getKey "https://example.com/api/data", { status := 200, statusText := "OK", body := "old" })])]
          fetches := 1 }) :=
  ⟨((C4_network_first_write_back_and_fallback
      { url := "https://example.com/api/data", pathname := "/api/data", destination := "" }
      [(STATIC_CACHE_NAME, [])]).1
      { status := 200, statusText := "OK", body := "fresh" }).2.1 (by decide) (by decide),
    (C4_network_first_write_back_and_fallback
      { url := "https://example.com/api/data", pathname := "/api/data", destination := "" }
      [(DYNAMIC_CACHE_NAME,
        [(getKey "https://example.com/api/data", { status := 200, statusText := "OK", body := "old" })])]).2
      ⟨(DYNAMIC_CACHE_NAME,
        [(getKey "https://example.com/api/data", { status := 200, statusText := "OK", body := "old" })]),
        by simp, by decide⟩⟩

/-- C5: when some cache holds the request's key, `cacheFirstStrategy` returns the stored
entry (the hit of `caches.match`), calls `fetch` zero times and leaves the caches
unchanged, whatever the network would answer; a second call returns the identical
response, again with no fetch and no change. -/
theorem C5_cache_first_idempotent_on_cached (request : Request) (caches : CacheStorage)
    (net net2 : Option Response) (h : caches.holds request.key) :
    ∃ c, (∃ p ∈ caches, Cache.match p.2 request.key = some c) ∧
      cacheFirstStrategy request caches net =
        { response := some c, caches := caches, fetches := 0 } ∧
      cacheFirstStrategy request (cacheFirstStrategy request caches net).caches net2 =
        { response := some c, caches := caches, fetches := 0 } := by
  obtain ⟨c, hc, hp⟩ := CacheStorage.match_isSome_of_holds caches request.key h
  have h1 : cacheFirstStrategy request caches net =
      { response := some c, caches := caches, fetches := 0 } := by
    simp [cacheFirstStrategy, hc]
  have h2 : cacheFirstStrategy request caches net2 =
      { response := some c, caches := caches, fetches := 0 } := by
    simp [cacheFirstStrategy, hc]
  refine ⟨c, hp, h1, ?_⟩
  rw [h1]
  exact h2

theorem C5_cache_first_idempotent_on_cached_witness :
    ∃ c, (∃ p ∈ ([(STATIC_CACHE_NAME,
          [(getKey "https://example.com/style.css", { status := 200, statusText := "OK", body := "a" })])] :
            CacheStorage),
        Cache.match p.2 (getKey "https://example.com/style.css") = some c) ∧
      cacheFirstStrategy
        { url := "https://example.com/style.css", pathname := "/style.css", destination := "style" }
        [(STATIC_CACHE_NAME,
          [(getKey "https://example.com/style.css", { status := 200, statusText := "OK", body := "a" })])]
        none =
        { response := some c
          caches := [(STATIC_CACHE_NAME,
            [(getKey "https://example.com/style.css", { status := 200, statusText := "OK", body := "a" })])]
          fetches := 0 } ∧
      cacheFirstStrategy
        { url := "https://example.com/style.css", pathname := "/style.css", destination := "style" }
        (cacheFirstStrategy
          { url := "https://example.com/style.css", pathname := "/style.css", destination := "style" }
          [(STATIC_CACHE_NAME,
            [(getKey "https://example.com/style.css", { status := 200, statusText := "OK", body := "a" })])]
          none).caches
        (some { status := 200, statusText := "OK", body := "b" }) =
        { response := some c
          caches := [(STATIC_CACHE_NAME,
            [(getKey "https://example.com/style.css", { status := 200, statusText := "OK", body := "a" })])]
          fetches := 0 } :=
  C5_cache_first_idempotent_on_cached
    { url := "https://example.com/style.css", pathname := "/style.css", destination := "style" }
    [(STATIC_CACHE_NAME,
      [(getKey "https://example.com/style.css", { status := 200, statusText := "OK", body := "a" })])]
    none (some { status := 200, statusText := "OK", body := "b" })
    ⟨(STATIC_CACHE_NAME,
      [(getKey "https://example.com/style.css", { status := 200, statusText := "OK", body := "a" })]),
      by simp, by decide⟩

theorem staleWhileRevalidateStrategy_cached (request : Request) (caches : CacheStorage)
    (c : Response) (net : Option Response)
    (hc : Cache.match (caches.entries DYNAMIC_CACHE_NAME) request.key = some c) :
    (staleWhileRevalidateStrategy request caches net).response = some c := by
  simp only [staleWhileRevalidateStrategy, CacheStorage.entries_open, hc]

theorem staleWhileRevalidateStrategy_caches_ok (request : Request) (caches : CacheStorage)
    (r : Response) (hok : r.ok = true) :
    (staleWhileRevalidateStrategy request caches (some r)).caches =
      (caches.open DYNAMIC_CACHE_NAME).put DYNAMIC_CACHE_NAME request.key r := by
  simp only [staleWhileRevalidateStrategy, hok, if_true, Response.clone]

/-- C6, as stated, fails: with a cached copy of "/" held by the static cache only and a
fresh response with status 200 from the network, the caller of
`staleWhileRevalidateStrategy` receives the fresh response, not the cached copy. -/
theorem C6_counterexample_copy_in_static_cache :
    CacheStorage.match
      [(STATIC_CACHE_NAME,
        [(getKey "https://example.com/", { status := 200, statusText := "OK", body := "stale" })])]
      (getKey "https://example.com/") = some { status := 200, statusText := "OK", body := "stale" } ∧
    Response.ok { status := 200, statusText := "OK", body := "fresh" } = true ∧
    (staleWhileRevalidateStrategy
      { url := "https://example.com/", pathname := "/", destination := "document" }
      [(STATIC_CACHE_NAME,
        [(getKey "https://example.com/", { status := 200, statusText := "OK", body := "stale" })])]
      (some { status := 200, statusText := "OK", body := "fresh" })).response =
        some { status := 200, statusText := "OK", body := "fresh" } ∧
    (staleWhileRevalidateStrategy
      { url := "https://example.com/", pathname := "/", destination := "document" }
      [(STATIC_CACHE_NAME,
        [(getKey "https://example.com/", { status := 200, statusText := "OK", body := "stale" })])]
      (some { status := 200, statusText := "OK", body := "fresh" })).response ≠
        some { status := 200, statusText := "OK", body := "stale" } := by
  decide

/-- C6, amended: when the dynamic cache holds a copy `c` for the request's key and the
network returns a response `r` with a success status that the platform accepts for
`cache.put` (a GET over http or https, status other than 206), `staleWhileRevalidateStrategy`
resolves to `c`, calls `fetch` once, and once the fetch has completed the dynamic cache
maps the key to `r`, so that the next call for the same key resolves to `r`, whatever the
network answers then. -/
theorem C6_stale_while_revalidate_serves_stale_then_fresh (request : Request)
    (caches : CacheStorage) (c r : Response) (net2 : Option Response)
    (hc : Cache.match (caches.entries DYNAMIC_CACHE_NAME) request.key = some c)
    (hok : r.ok = true) (hacc : putAccepted request.key r = true) :
    (staleWhileRevalidateStrategy request caches (some r)).response = some c ∧
    (staleWhileRevalidateStrategy request caches (some r)).fetches = 1 ∧
    Cache.match
      ((staleWhileRevalidateStrategy request caches (some r)).caches.entries DYNAMIC_CACHE_NAME)
      request.key = some r ∧
    (staleWhileRevalidateStrategy request
      (staleWhileRevalidateStrategy request caches (some r)).caches net2).response = some r := by
  have hstore := staleWhileRevalidateStrategy_caches_ok request caches r hok
  have hfresh : Cache.match
      ((staleWhileRevalidateStrategy request caches (some r)).caches.entries DYNAMIC_CACHE_NAME)
      request.key = some r := by
    rw [hstore]
    exact CacheStorage.match_entries_open_put caches DYNAMIC_CACHE_NAME request.key r hacc
  exact ⟨staleWhileRevalidateStrategy_cached request caches c (some r) hc, rfl, hfresh,
    staleWhileRevalidateStrategy_cached request _ r net2 hfresh⟩

theorem C6_stale_while_revalidate_serves_stale_then_fresh_witness :
    (staleWhileRevalidateStrategy
      { url := "https://example.com/", pathname := "/", destination := "document" }
      [(DYNAMIC_CACHE_NAME,
        [(getKey "https://example.com/", { status := 200, statusText := "OK", body := "stale" })])]
      (some { status := 200, statusText := "OK", body := "fresh" })).response =
        some { status := 200, statusText := "OK", body := "stale" } ∧
    (staleWhileRevalidateStrategy
      { url := "https://example.com/", pathname := "/", destination := "document" }
      (staleWhileRevalidateStrategy
        { url := "https://example.com/", pathname := "/", destination := "document" }
        [(DYNAMIC_CACHE_NAME,
          [(getKey "https://example.com/", { status := 200, statusText := "OK", body := "stale" })])]
        (some { status := 200, statusText := "OK", body := "fresh" })).caches
      none).response = some { status := 200, statusText := "OK", body := "fresh" } :=
  have h := C6_stale_while_revalidate_serves_stale_then_fresh
    { url := "https://example.com/", pathname := "/", destination := "document" }
    [(DYNAMIC_CACHE_NAME,
      [(getKey "https://example.com/", { status := 200, statusText := "OK", body := "stale" })])]
    { status := 200, statusText := "OK", body := "stale" }
    { status := 200, statusText := "OK", body := "fresh" } none
    (by decide) (by decide) (by decide)
  ⟨h.1, h.2.2.2⟩

/-! ## Lifecycle -/

theorem foldl_delete_eq_filter (cond : String → Bool) (names : List String) (st : CacheStorage) :
    names.foldl (fun st cacheName => if cond cacheName = true then st.delete cacheName else st) st =
      st.filter (fun q => !(decide (q.1 ∈ names) && cond q.1)) := by
  induction names generalizing st with
  | nil => simp
  | cons n ns ih =>
    rw [List.foldl_cons, ih]
    by_cases hn : cond n = true
    · simp only [hn, if_true, CacheStorage.delete, List.filter_filter]
      apply List.filter_congr
      intro q _
      by_cases hq : q.1 = n
      · simp [hq, hn]
      · simp [hq]
    · simp only [hn, if_false]
      apply List.filter_congr
      intro q _
      by_cases hq : q.1 = n
      · simp [hq, hn]
      · simp [hq]

theorem activateCleanup_eq_filter (staticName dynamicName : String) (caches : CacheStorage) :
    activateCleanup staticName dynamicName caches =
      caches.filter (fun p => decide (p.1 = staticName ∨ p.1 = dynamicName)) := by
  have h := foldl_delete_eq_filter
    (fun n => decide (n ≠ staticName ∧ n ≠ dynamicName)) caches.keys caches
  simp only [decide_eq_true_eq] at h
  unfold activateCleanup
  rw [h]
  apply List.filter_congr
  intro q hq
  have hmem : q.1 ∈ CacheStorage.keys caches := List.mem_map.mpr ⟨q, hq, rfl⟩
  by_cases h1 : q.1 = staticName <;> by_cases h2 : q.1 = dynamicName <;> simp [hmem, h1, h2]

/-- C7: the cleanup of the activate handler keeps exactly the caches whose name is the
current static name or the current dynamic name, with their entries, and deletes every
other one, version tag or not; from static-v1, dynamic-v1, static-v0, orphan-v1 with
current names static-v1 and dynamic-v1, only static-v1 and dynamic-v1 remain. -/
theorem C7_activate_keeps_only_current_caches (staticName dynamicName : String)
    (caches : CacheStorage) :
    activateCleanup staticName dynamicName caches =
      caches.filter (fun p => decide (p.1 = staticName ∨ p.1 = dynamicName)) ∧
    (activateCleanup staticName dynamicName caches).keys =
      caches.keys.filter (fun n => decide (n = staticName ∨ n = dynamicName)) ∧
    (activateHandler caches).caches.keys =
      caches.keys.filter (fun n => decide (n = STATIC_CACHE_NAME ∨ n = DYNAMIC_CACHE_NAME)) ∧
    (∀ a b c d : Cache,
      activateCleanup "static-v1" "dynamic-v1"
        [("static-v1", a), ("dynamic-v1", b), ("static-v0", c), ("orphan-v1", d)] =
        [("static-v1", a), ("dynamic-v1", b)]) := by
  have hkeys : ∀ s d : String, (activateCleanup s d caches).keys =
      caches.keys.filter (fun n => decide (n = s ∨ n = d)) := by
    intro s d
    rw [activateCleanup_eq_filter]
    simp only [CacheStorage.keys, List.filter_map]
    rfl
  refine ⟨activateCleanup_eq_filter staticName dynamicName caches, hkeys _ _, hkeys _ _, ?_⟩
  intro a b c d
  rw [activateCleanup_eq_filter]
  simp [List.filter_cons]

/-- The last entry of the manifest is a `data:` URL, which `cache.addAll` does not accept,
whatever the origin and whatever the network answers. -/
theorem staticAssets_never_all_added (origin : String) (fetchAsset : String → Option Response) :
    (staticAssets.map (resolveUrl origin)).all (assetAdded fetchAsset) = false := by
  have hdata : ∀ u : String, scheme u = "data" → assetAdded fetchAsset u = false := by
    intro u hu
    simp [assetAdded, hu]
  have hpath : startsWith (staticAssets.getLast (by decide)) "/" = false := by decide
  have hscheme : scheme (resolveUrl origin (staticAssets.getLast (by decide))) = "data" := by
    simp only [resolveUrl, hpath, Bool.false_eq_true, if_false]
    decide
  have hmem : resolveUrl origin (staticAssets.getLast (by decide)) ∈
      staticAssets.map (resolveUrl origin) :=
    List.mem_map.mpr ⟨_, List.getLast_mem _, rfl⟩
  cases hall : (staticAssets.map (resolveUrl origin)).all (assetAdded fetchAsset) with
  | false => rfl
  | true =>
    have := List.all_eq_true.mp hall _ hmem
    rw [hdata _ hscheme] at this
    exact absurd this (by decide)

theorem installHandler_eq (caches : CacheStorage) (origin : String)
    (fetchAsset : String → Option Response) :
    installHandler caches origin fetchAsset =
      { waitUntil := Settled.fulfilled
        caches := caches.open STATIC_CACHE_NAME
        skipWaiting := false } := by
  simp [installHandler, addAll, staticAssets_never_all_added origin fetchAsset]

/-- C8, where the code departs from it: adding the manifest always fails, since its last
entry is a `data:` URL that `cache.addAll` rejects, and the `catch` of the install handler
only logs: for every store, origin and network the promise handed to `event.waitUntil` is
fulfilled, nothing is written and `skipWaiting` is not called; with every manifest path
answered 200 the install is reported as a success while the static cache is empty. -/
theorem C8_install_failure_reported_as_success :
    (∀ (caches : CacheStorage) (origin : String) (fetchAsset : String → Option Response),
      installHandler caches origin fetchAsset =
        { waitUntil := Settled.fulfilled
          caches := caches.open STATIC_CACHE_NAME
          skipWaiting := false }) ∧
    installHandler [] "https://example.com"
        (fun _ => some { status := 200, statusText := "OK", body := "asset" }) =
      { waitUntil := Settled.fulfilled
        caches := [(STATIC_CACHE_NAME, [])]
        skipWaiting := false } ∧
    Cache.match
      ((installHandler [] "https://example.com"
        (fun _ => some { status := 200, statusText := "OK", body := "asset" })).caches.entries
          STATIC_CACHE_NAME)
      (getKey "https://example.com/style.css") = none :=
  ⟨installHandler_eq,
    installHandler_eq [] "https://example.com" _,
    by rw [installHandler_eq]; decide⟩

theorem cacheFirstStrategy_miss_stores (request : Request) (caches : CacheStorage)
    (r : Response) (hmiss : ¬ caches.holds request.key) (hok : r.ok = true)
    (hacc : putAccepted request.key r = true) :
    (cacheFirstStrategy request caches (some r)).response = some r ∧
    (cacheFirstStrategy request caches (some r)).fetches = 1 ∧
    Cache.match
      ((cacheFirstStrategy request caches (some r)).caches.entries DYNAMIC_CACHE_NAME)
      request.key = some r.clone := by
  have hm := CacheStorage.match_eq_none_of_not_holds caches request.key hmiss
  refine ⟨by simp [cacheFirstStrategy, hm, hok], by simp [cacheFirstStrategy, hm, hok], ?_⟩
  simp only [cacheFirstStrategy, hm, hok, if_true]
  exact CacheStorage.match_entries_open_put caches DYNAMIC_CACHE_NAME request.key r.clone hacc

/-- C9, where the code departs from it: with no cached entry, a GET of "/x.json" answered
206 Partial Content (`ok` is true) is returned by `cacheFirstStrategy`, but the `cache.put`
that is not awaited is rejected and the dynamic cache has no entry for the key afterwards;
the same happens for a POST answered 200. -/
theorem C9_cache_first_valid_response_not_stored :
    Response.ok { status := 206, statusText := "Partial Content", body := "part" } = true ∧
    CacheStorage.match []
      (Request.key
        { url := "https://example.com/x.json", pathname := "/x.json", destination := "" })
        = none ∧
    (cacheFirstStrategy
      { url := "https://example.com/x.json", pathname := "/x.json", destination := "" } []
      (some { status := 206, statusText := "Partial Content", body := "part" })).response =
        some { status := 206, statusText := "Partial Content", body := "part" } ∧
    Cache.match
      ((cacheFirstStrategy
        { url := "https://example.com/x.json", pathname := "/x.json", destination := "" } []
        (some { status := 206, statusText := "Partial Content", body := "part" })).caches.entries
          DYNAMIC_CACHE_NAME)
      (Request.key
        { url := "https://example.com/x.json", pathname := "/x.json", destination := "" })
        = none ∧
    (cacheFirstStrategy
      { url := "https://example.com/x.json", pathname := "/x.json", destination := ""
        method := "POST" } []
      (some { status := 200, statusText := "OK", body := "done" })).response =
        some { status := 200, statusText := "OK", body := "done" } ∧
    Cache.match
      ((cacheFirstStrategy
        { url := "https://example.com/x.json", pathname := "/x.json", destination := ""
          method := "POST" } []
        (some { status := 200, statusText := "OK", body := "done" })).caches.entries
          DYNAMIC_CACHE_NAME)
      (Request.key
        { url := "https://example.com/x.json", pathname := "/x.json", destination := ""
          method := "POST" })
        = none := by
  decide

/-- C10: when the fetch fails and no cache holds the request's key, `networkFirstStrategy`
resolves (it does not reject) to a synthesized response with status 503, status text
"Service Unavailable" and body "Conteúdo não disponível", after one fetch and with the
caches unchanged; so does the fetch handler for "/api/contact" with an empty store. -/
theorem C10_network_first_offline_fallback (request : Request) (caches : CacheStorage)
    (hmiss : ¬ caches.holds request.key) :
    networkFirstStrategy request caches none =
      { response := some
          { status := 503, statusText := "Service Unavailable", body := "Conteúdo não disponível" }
        caches := caches
        fetches := 1 } ∧
    fetchHandler
      { url := "https://example.com/api/contact", pathname := "/api/contact", destination := "" }
      [] none =
      { strategy := some Strategy.NetworkFirst
        respondWith := some (some
          { status := 503, statusText := "Service Unavailable", body := "Conteúdo não disponível" })
        caches := []
        fetches := 1 } := by
  have hm := CacheStorage.match_eq_none_of_not_holds caches request.key hmiss
  refine ⟨by simp [networkFirstStrategy, hm, unavailableResponse], by decide⟩

theorem C10_network_first_offline_fallback_witness :
    networkFirstStrategy
      { url := "https://example.com/api/contact", pathname := "/api/contact", destination := "" }
      [(STATIC_CACHE_NAME, [(getKey "https://example.com/", { status := 200, statusText := "OK", body := "" })])]
      none =
      { response := some
          { status := 503, statusText := "Service Unavailable", body := "Conteúdo não disponível" }
        caches :=
          [(STATIC_CACHE_NAME, [(getKey "https://example.com/", { status := 200, statusText := "OK", body := "" })])]
        fetches := 1 } :=
  (C10_network_first_offline_fallback
    { url := "https://example.com/api/contact", pathname := "/api/contact", destination := "" }
    [(STATIC_CACHE_NAME, [(getKey "https://example.com/", { status := 200, statusText := "OK", body := "" })])]
    (by simp [CacheStorage.holds, Cache.match, Request.key, getKey])).1

/-! ## Write-back and frame of the strategies -/

theorem findSome?_eq_some_of_forall {α β : Type} (f : α → Option β) (b : β) (l : List α)
    (hall : ∀ x ∈ l, f x = none ∨ f x = some b) (hex : ∃ x ∈ l, f x = some b) :
    l.findSome? f = some b := by
  induction l with
  | nil => obtain ⟨x, hx, _⟩ := hex; simp at hx
  | cons y ys ih =>
    rcases hall y (List.mem_cons_self y ys) with hy | hy
    · simp only [List.findSome?_cons, hy]
      apply ih (fun x hx => hall x (List.mem_cons_of_mem y hx))
      obtain ⟨x, hx, hfx⟩ := hex
      rcases List.mem_cons.mp hx with rfl | hx'
      · rw [hy] at hfx; cases hfx
      · exact ⟨x, hx', hfx⟩
    · simp only [List.findSome?_cons, hy]

theorem CacheStorage.mem_open (s : CacheStorage) (n : String) (q : String × Cache)
    (hq : q ∈ s.open n) : q ∈ s ∨ q = (n, []) := by
  unfold CacheStorage.open at hq
  by_cases h : s.has n = true
  · simp only [h, if_true] at hq
    exact Or.inl hq
  · rw [if_neg h] at hq
    simpa only [List.mem_append, List.mem_singleton] using hq

theorem CacheStorage.before_open (s : CacheStorage) (n : String) :
    (s.open n).before n = s.before n := by
  unfold CacheStorage.open CacheStorage.before
  by_cases h : s.has n = true
  · simp [h]
  · rw [if_neg h]
    have hall : ∀ p ∈ s, (decide (p.1 ≠ n)) = true := by
      intro p hp
      simp only [decide_eq_true_eq]
      intro hpn
      apply h
      simp only [CacheStorage.has, List.any_eq_true, decide_eq_true_eq]
      exact ⟨p, hp, hpn⟩
    rw [List.takeWhile_append_of_pos hall, List.takeWhile_eq_self_iff.mpr hall]
    simp

theorem CacheStorage.match_put_of_has (s : CacheStorage) (n : String) (k : RequestKey)
    (r : Response) (hacc : putAccepted k r = true) (hhas : s.has n = true) :
    CacheStorage.match (s.put n k r) k = (CacheStorage.match (s.before n) k).or (some r) := by
  induction s with
  | nil => simp [CacheStorage.has] at hhas
  | cons p t ih =>
    by_cases hp : p.1 = n
    · simp [CacheStorage.match, CacheStorage.put, CacheStorage.before, hp,
        Cache.match_put_self p.2 k r hacc]
    · have ht : CacheStorage.has t n = true := by
        simpa [CacheStorage.has, hp] using hhas
      have ih' := ih ht
      simp only [CacheStorage.match, CacheStorage.put, CacheStorage.before] at ih' ⊢
      cases hm : Cache.match p.2 k with
      | some c => simp [hp, hm]
      | none => simpa [hp, hm] using ih'

/-- After an accepted write-back into the cache called `n`, `caches.match` gives the entry
of a cache created before it when there is one, and the written response otherwise. -/
theorem CacheStorage.match_open_put (s : CacheStorage) (n : String) (k : RequestKey)
    (r : Response) (hacc : putAccepted k r = true) :
    CacheStorage.match ((s.open n).put n k r) k =
      (CacheStorage.match (s.before n) k).or (some r) := by
  rw [CacheStorage.match_put_of_has _ n k r hacc (CacheStorage.has_open s n),
    CacheStorage.before_open]

theorem CacheStorage.match_before_eq_none (s : CacheStorage) (n : String) (k : RequestKey)
    (h : s.match k = none) : CacheStorage.match (s.before n) k = none := by
  simp only [CacheStorage.match, List.findSome?_eq_none_iff] at h ⊢
  intro p hp
  exact h p ((List.takeWhile_sublist _).subset hp)

/-- C11: when no cache holds the request's key and the fetch throws, `cacheFirstStrategy`
resolves (it does not reject) to a synthesized response with status 503, status text
"Service Unavailable" and body "Conteúdo não disponível offline", after exactly one call
of `fetch` (no retry) and with the caches unchanged. -/
theorem C11_cache_first_offline_fallback (request : Request) (caches : CacheStorage)
    (hmiss : ¬ caches.holds request.key) :
    cacheFirstStrategy request caches none =
      { response := some
          { status := 503, statusText := "Service Unavailable"
            body := "Conteúdo não disponível offline" }
        caches := caches
        fetches := 1 } := by
  have hm := CacheStorage.match_eq_none_of_not_holds caches request.key hmiss
  simp [cacheFirstStrategy, hm, offlineResponse]

theorem C11_cache_first_offline_fallback_witness :
    cacheFirstStrategy
      { url := "https://example.com/style.css", pathname := "/style.css", destination := "style" }
      [(STATIC_CACHE_NAME, [(getKey "https://example.com/", { status := 200, statusText := "OK", body := "" })])]
      none =
      { response := some
          { status := 503, statusText := "Service Unavailable"
            body := "Conteúdo não disponível offline" }
        caches :=
          [(STATIC_CACHE_NAME, [(getKey "https://example.com/", { status := 200, statusText := "OK", body := "" })])]
        fetches := 1 } :=
  C11_cache_first_offline_fallback
    { url := "https://example.com/style.css", pathname := "/style.css", destination := "style" }
    [(STATIC_CACHE_NAME, [(getKey "https://example.com/", { status := 200, statusText := "OK", body := "" })])]
    (by simp [CacheStorage.holds, Cache.match, Request.key, getKey])

/-- C12, as stated, fails: `networkFirstStrategy` writes the fresh response into the
dynamic cache while the static cache, created earlier, already holds an entry for the key;
the strategy's own lookup `caches.match` then returns the older entry, not the written
response. -/
theorem C12_counterexample_earlier_cache_shadows_write :
    Cache.match
      ((networkFirstStrategy
        { url := "https://example.com/form", pathname := "/form", destination := "document" }
        [(STATIC_CACHE_NAME,
          [(getKey "https://example.com/form", { status := 200, statusText := "OK", body := "old" })])]
        (some { status := 200, statusText := "OK", body := "new" })).caches.entries
          DYNAMIC_CACHE_NAME)
      (getKey "https://example.com/form") = some { status := 200, statusText := "OK", body := "new" } ∧
    CacheStorage.match
      (networkFirstStrategy
        { url := "https://example.com/form", pathname := "/form", destination := "document" }
        [(STATIC_CACHE_NAME,
          [(getKey "https://example.com/form", { status := 200, statusText := "OK", body := "old" })])]
        (some { status := 200, statusText := "OK", body := "new" })).caches
      (getKey "https://example.com/form") = some { status := 200, statusText := "OK", body := "old" } ∧
    CacheStorage.match
      (networkFirstStrategy
        { url := "https://example.com/form", pathname := "/form", destination := "document" }
        [(STATIC_CACHE_NAME,
          [(getKey "https://example.com/form", { status := 200, statusText := "OK", body := "old" })])]
        (some { status := 200, statusText := "OK", body := "new" })).caches
      (getKey "https://example.com/form") ≠ some { status := 200, statusText := "OK", body := "new" } := by
  decide

/-- C12, amended: a response `r` with a success status that a strategy writes back (the
platform accepting it for `cache.put`) is held by the dynamic cache under the request's
key afterwards, and the strategy's own lookup finds it again: `caches.match` after
`cacheFirstStrategy`, which writes only on a miss in every cache; the lookup in the dynamic
cache after `staleWhileRevalidateStrategy`, whatever the other caches hold; after
`networkFirstStrategy`, `caches.match` gives the entry of a cache created before the
dynamic one when such a cache holds the key, and `r` otherwise. -/
theorem C12_write_back_round_trip (request : Request) (caches : CacheStorage) (r : Response)
    (hok : r.ok = true) (hacc : putAccepted request.key r = true) :
    (caches.match request.key = none →
      CacheStorage.match (cacheFirstStrategy request caches (some r)).caches request.key
        = some r) ∧
    CacheStorage.match (networkFirstStrategy request caches (some r)).caches request.key =
      (CacheStorage.match (caches.before DYNAMIC_CACHE_NAME) request.key).or (some r) ∧
    (CacheStorage.match (caches.before DYNAMIC_CACHE_NAME) request.key = none →
      CacheStorage.match (networkFirstStrategy request caches (some r)).caches request.key
        = some r) ∧
    Cache.match
      ((networkFirstStrategy request caches (some r)).caches.entries DYNAMIC_CACHE_NAME)
      request.key = some r ∧
    Cache.match
      ((staleWhileRevalidateStrategy request caches (some r)).caches.entries DYNAMIC_CACHE_NAME)
      request.key = some r := by
  have hnf : CacheStorage.match (networkFirstStrategy request caches (some r)).caches
      request.key =
      (CacheStorage.match (caches.before DYNAMIC_CACHE_NAME) request.key).or (some r) := by
    simp only [networkFirstStrategy, hok, if_true, Response.clone]
    exact CacheStorage.match_open_put caches DYNAMIC_CACHE_NAME request.key r hacc
  refine ⟨?_, hnf, ?_, ?_, ?_⟩
  · intro hm
    simp only [cacheFirstStrategy, hm, hok, if_true, Response.clone]
    rw [CacheStorage.match_open_put caches DYNAMIC_CACHE_NAME request.key r hacc,
      CacheStorage.match_before_eq_none caches DYNAMIC_CACHE_NAME request.key hm]
    rfl
  · intro hb
    rw [hnf, hb]
    rfl
  · simp only [networkFirstStrategy, hok, if_true, Response.clone]
    exact CacheStorage.match_entries_open_put caches DYNAMIC_CACHE_NAME request.key r hacc
  · rw [staleWhileRevalidateStrategy_caches_ok request caches r hok]
    exact CacheStorage.match_entries_open_put caches DYNAMIC_CACHE_NAME request.key r hacc

theorem C12_write_back_round_trip_witness :
    CacheStorage.match
      (cacheFirstStrategy
        { url := "https://example.com/app.js", pathname := "/app.js", destination := "script" }
        [(STATIC_CACHE_NAME, [])]
        (some { status := 200, statusText := "OK", body := "js" })).caches
      (Request.key
        { url := "https://example.com/app.js", pathname := "/app.js", destination := "script" })
        = some { status := 200, statusText := "OK", body := "js" } ∧
    CacheStorage.match
      (networkFirstStrategy
        { url := "https://example.com/form", pathname := "/form", destination := "document" }
        [(DYNAMIC_CACHE_NAME, []),
          (STATIC_CACHE_NAME,
            [(getKey "https://example.com/form", { status := 200, statusText := "OK", body := "old" })])]
        (some { status := 200, statusText := "OK", body := "new" })).caches
      (Request.key
        { url := "https://example.com/form", pathname := "/form", destination := "document" })
        = some { status := 200, statusText := "OK", body := "new" } :=
  ⟨(C12_write_back_round_trip
      { url := "https://example.com/app.js", pathname := "/app.js", destination := "script" }
      [(STATIC_CACHE_NAME, [])] { status := 200, statusText := "OK", body := "js" }
      (by decide) (by decide)).1 (by decide),
    (C12_write_back_round_trip
      { url := "https://example.com/form", pathname := "/form", destination := "document" }
      [(DYNAMIC_CACHE_NAME, []),
        (STATIC_CACHE_NAME,
          [(getKey "https://example.com/form", { status := 200, statusText := "OK", body := "old" })])]
      { status := 200, statusText := "OK", body := "new" }
      (by decide) (by decide)).2.2.1 (by decide)⟩

/-! ## Periodic cleanup -/

theorem periodicCleanup_eq_filter (staticName dynamicName : String) (caches : CacheStorage) :
    periodicCleanup staticName dynamicName caches =
      caches.filter (fun p =>
        !decide (includes p.1 "-v" = true ∧ p.1 ≠ staticName ∧ p.1 ≠ dynamicName)) := by
  have h := foldl_delete_eq_filter
    (fun n => decide (includes n "-v" = true ∧ n ≠ staticName ∧ n ≠ dynamicName))
    caches.keys caches
  simp only [decide_eq_true_eq] at h
  unfold periodicCleanup
  rw [h]
  apply List.filter_congr
  intro q hq
  have hmem : q.1 ∈ CacheStorage.keys caches := List.mem_map.mpr ⟨q, hq, rfl⟩
  simp [hmem]

theorem CacheStorage.has_filter_name (keep : String → Bool) (caches : CacheStorage) (n : String) :
    CacheStorage.has (caches.filter (fun q => keep q.1)) n = (caches.has n && keep n) := by
  induction caches with
  | nil => simp [CacheStorage.has]
  | cons q t ih =>
    simp only [CacheStorage.has] at ih ⊢
    by_cases hk : keep q.1 = true
    · by_cases hn : q.1 = n
      · subst hn
        simp [List.filter_cons, hk]
      · simp [List.filter_cons, hk, hn, ih]
    · by_cases hn : q.1 = n
      · subst hn
        simp only [Bool.not_eq_true] at hk
        simp [List.filter_cons, hk, ih]
      · simp [List.filter_cons, hk, hn, ih]

/-- C13: one run of the periodic cleanup keeps, with their entries, exactly the caches
whose name does not include "-v" or is the current static or dynamic name, and deletes
exactly those whose name includes "-v" and is neither current name. -/
theorem C13_periodic_cleanup_deletes_stale_versioned (staticName dynamicName : String)
    (caches : CacheStorage) :
    periodicCleanup staticName dynamicName caches =
      caches.filter (fun p =>
        !decide (includes p.1 "-v" = true ∧ p.1 ≠ staticName ∧ p.1 ≠ dynamicName)) ∧
    (∀ p, p ∈ periodicCleanup staticName dynamicName caches ↔
      (p ∈ caches ∧ ¬ (includes p.1 "-v" = true ∧ p.1 ≠ staticName ∧ p.1 ≠ dynamicName))) ∧
    (∀ n, n ∈ deletedNames caches (periodicCleanup staticName dynamicName caches) ↔
      (n ∈ caches.keys ∧ includes n "-v" = true ∧ n ≠ staticName ∧ n ≠ dynamicName)) ∧
    (cleanupCallback caches).keys =
      caches.keys.filter (fun n =>
        !decide (includes n "-v" = true ∧ n ≠ STATIC_CACHE_NAME ∧ n ≠ DYNAMIC_CACHE_NAME)) ∧
    (∀ a b c d e : Cache,
      periodicCleanup "static-v1" "dynamic-v1"
        [("static-v1", a), ("dynamic-v1", b), ("static-v0", c), ("orphan", d), ("orphan-v1", e)] =
        [("static-v1", a), ("dynamic-v1", b), ("orphan", d)]) := by
  have heq := periodicCleanup_eq_filter staticName dynamicName caches
  refine ⟨heq, ?_, ?_, ?_, ?_⟩
  · intro p
    rw [heq]
    simp only [List.mem_filter, Bool.not_eq_true', decide_eq_false_iff_not]
  · intro n
    rw [heq]
    have hf := CacheStorage.has_filter_name
      (fun m => !decide (includes m "-v" = true ∧ m ≠ staticName ∧ m ≠ dynamicName)) caches n
    simp only [deletedNames, List.mem_filter, hf]
    constructor
    · rintro ⟨hn, hdel⟩
      have hhas : CacheStorage.has caches n = true := by
        obtain ⟨q, hq, hqn⟩ := List.mem_map.mp hn
        simp only [CacheStorage.has, List.any_eq_true, decide_eq_true_eq]
        exact ⟨q, hq, hqn⟩
      simp only [hhas, Bool.true_and, Bool.not_not, decide_eq_true_eq] at hdel
      exact ⟨hn, hdel⟩
    · rintro ⟨hn, hcond⟩
      refine ⟨hn, ?_⟩
      simp [hcond]
  · unfold cleanupCallback
    rw [periodicCleanup_eq_filter]
    simp only [CacheStorage.keys, List.filter_map]
    rfl
  · intro a b c d e
    rw [periodicCleanup_eq_filter]
    have h1 : includes "static-v0" "-v" = true := by decide
    have h2 : includes "orphan" "-v" = false := by decide
    have h3 : includes "orphan-v1" "-v" = true := by decide
    simp [List.filter_cons, h1, h2, h3]

/-! ## Push notifications -/

/-- C14, where the code departs from it: the push handler returns without a notification
for an absent payload and shows a notification with the two actions "open" and "close"
and the defaults for any JSON object, but it throws a `SyntaxError` for a payload that is
not valid JSON and a `TypeError` for the JSON value `null`. -/
theorem C14_push_handler_throws_on_malformed_payload :
    pushHandler (some (PushMessageData.invalid "not json")) = Except.error "SyntaxError" ∧
    pushHandler (some (PushMessageData.parsed Json.null)) = Except.error "TypeError" ∧
    pushHandler none = Except.ok none ∧
    (∀ fields, ∃ n, pushHandler (some (PushMessageData.parsed (Json.obj fields))) =
        Except.ok (some n) ∧
      n.actions = [{ action := "open", title := "Abrir" }, { action := "close", title := "Fechar" }]) ∧
    (∃ n, pushHandler (some (PushMessageData.parsed (Json.obj []))) = Except.ok (some n) ∧
      n.title = Json.str "PostgreSQL Brasil" ∧
      n.body = Json.str "Você tem uma nova notificação" ∧
      n.data = Json.obj []) := by
  refine ⟨rfl, rfl, rfl, ?_, ⟨_, rfl, rfl, rfl, rfl⟩⟩
  intro fields
  exact ⟨_, rfl, rfl⟩

/-! ## Responses without a success status -/

theorem CacheStorage.entries_open_any (s : CacheStorage) (n m : String) :
    (s.open n).entries m = s.entries m := by
  by_cases hnm : m = n
  · subst hnm
    exact CacheStorage.entries_open s m
  · unfold CacheStorage.open
    by_cases h : s.has n = true
    · simp [h]
    · rw [if_neg h]
      have hne : ¬ n = m := fun h' => hnm h'.symm
      simp only [CacheStorage.entries, List.find?_append, List.find?_cons, hne, decide_False,
        List.find?_nil, Option.or_none]

/-- C15, as stated, fails: `staleWhileRevalidateStrategy` with a 404 response from the
network and no dynamic cache returns the response and writes no entry, yet the store is
not unchanged: `caches.open` has created the empty dynamic cache. -/
theorem C15_counterexample_open_creates_dynamic_cache :
    Response.ok { status := 404, statusText := "Not Found", body := "" } = false ∧
    (staleWhileRevalidateStrategy
      { url := "https://example.com/about", pathname := "/about", destination := "document" }
      [] (some { status := 404, statusText := "Not Found", body := "" })).response =
        some { status := 404, statusText := "Not Found", body := "" } ∧
    (staleWhileRevalidateStrategy
      { url := "https://example.com/about", pathname := "/about", destination := "document" }
      [] (some { status := 404, statusText := "Not Found", body := "" })).caches =
        [(DYNAMIC_CACHE_NAME, [])] ∧
    (staleWhileRevalidateStrategy
      { url := "https://example.com/about", pathname := "/about", destination := "document" }
      [] (some { status := 404, statusText := "Not Found", body := "" })).caches ≠ [] := by
  decide

/-- C15, amended: when the network gives no response with a success status (a response
with `ok` false, or a failure), no strategy writes an entry: `cacheFirstStrategy` and
`networkFirstStrategy` leave the whole store unchanged, and `staleWhileRevalidateStrategy`
leaves the store as `caches.open` of the dynamic cache leaves it, every cache keeping its
entries; a response with `ok` false is returned as it is whenever the strategy resolves
from the network. -/
theorem C15_non_ok_response_never_written (request : Request) (caches : CacheStorage)
    (net : Option Response) (hnok : ∀ r, net = some r → r.ok = false) :
    (cacheFirstStrategy request caches net).caches = caches ∧
    (networkFirstStrategy request caches net).caches = caches ∧
    (staleWhileRevalidateStrategy request caches net).caches = caches.open DYNAMIC_CACHE_NAME ∧
    (∀ n, (staleWhileRevalidateStrategy request caches net).caches.entries n = caches.entries n) ∧
    (∀ r, net = some r →
      (networkFirstStrategy request caches net).response = some r ∧
      (caches.match request.key = none →
        (cacheFirstStrategy request caches net).response = some r) ∧
      (Cache.match (caches.entries DYNAMIC_CACHE_NAME) request.key = none →
        (staleWhileRevalidateStrategy request caches net).response = some r)) := by
  have hswr : (staleWhileRevalidateStrategy request caches net).caches =
      caches.open DYNAMIC_CACHE_NAME := by
    cases net with
    | none => simp [staleWhileRevalidateStrategy]
    | some r => simp [staleWhileRevalidateStrategy, hnok r rfl]
  refine ⟨?_, ?_, hswr, ?_, ?_⟩
  · unfold cacheFirstStrategy
    cases caches.match request.key with
    | some c => rfl
    | none =>
      cases net with
      | none => rfl
      | some r => simp [hnok r rfl]
  · unfold networkFirstStrategy
    cases net with
    | none => cases caches.match request.key <;> rfl
    | some r => simp [hnok r rfl]
  · intro n
    rw [hswr]
    exact CacheStorage.entries_open_any caches DYNAMIC_CACHE_NAME n
  · intro r hr
    subst hr
    have hr := hnok r rfl
    refine ⟨by simp [networkFirstStrategy, hr], ?_, ?_⟩
    · intro hm
      simp [cacheFirstStrategy, hm, hr]
    · intro hm
      simp [staleWhileRevalidateStrategy, CacheStorage.entries_open, hm, hr]

theorem C15_non_ok_response_never_written_witness :
    (networkFirstStrategy
      { url := "https://example.com/api/x", pathname := "/api/x", destination := "" }
      [(STATIC_CACHE_NAME, [])]
      (some { status := 500, statusText := "Internal Server Error", body := "" })).caches =
        [(STATIC_CACHE_NAME, [])] ∧
    (networkFirstStrategy
      { url := "https://example.com/api/x", pathname := "/api/x", destination := "" }
      [(STATIC_CACHE_NAME, [])]
      (some { status := 500, statusText := "Internal Server Error", body := "" })).response =
        some { status := 500, statusText := "Internal Server Error", body := "" } :=
  have h := C15_non_ok_response_never_written
    { url := "https://example.com/api/x", pathname := "/api/x", destination := "" }
    [(STATIC_CACHE_NAME, [])]
    (some { status := 500, statusText := "Internal Server Error", body := "" })
    (by intro r hr; cases hr; decide)
  ⟨h.2.1, (h.2.2.2.2 _ rfl).1⟩

/-- C16: `staleWhileRevalidateStrategy` consults the dynamic cache only: with "/" held by
the static cache, absent from the dynamic cache, and the fetch rejected, it resolves to
`undefined`, neither the static entry nor a 503 response; and whenever the dynamic cache
holds the key, the response is the dynamic entry, whatever the other caches hold and
whatever the network answers. -/
theorem C16_stale_while_revalidate_consults_dynamic_only :
    (∃ (request : Request) (caches : CacheStorage) (c : Response),
      Cache.match (caches.entries STATIC_CACHE_NAME) request.key = some c ∧
      Cache.match (caches.entries DYNAMIC_CACHE_NAME) request.key = none ∧
      (staleWhileRevalidateStrategy request caches none).response = none) ∧
    (∀ (request : Request) (caches : CacheStorage) (net : Option Response) (c : Response),
      Cache.match (caches.entries DYNAMIC_CACHE_NAME) request.key = some c →
      (staleWhileRevalidateStrategy request caches net).response = some c) :=
  ⟨⟨{ url := "https://example.com/", pathname := "/", destination := "document" },
      [(STATIC_CACHE_NAME,
        [(getKey "https://example.com/", { status := 200, statusText := "OK", body := "<html>" })])],
      { status := 200, statusText := "OK", body := "<html>" }, by decide, by decide, by decide⟩,
    fun request caches net c hc => staleWhileRevalidateStrategy_cached request caches c net hc⟩

theorem C16_stale_while_revalidate_consults_dynamic_only_witness :
    (staleWhileRevalidateStrategy
      { url := "https://example.com/", pathname := "/", destination := "document" }
      [(STATIC_CACHE_NAME,
          [(getKey "https://example.com/", { status := 200, statusText := "OK", body := "static" })]),
        (DYNAMIC_CACHE_NAME,
          [(getKey "https://example.com/", { status := 200, statusText := "OK", body := "dynamic" })])]
      none).response = some { status := 200, statusText := "OK", body := "dynamic" } :=
  C16_stale_while_revalidate_consults_dynamic_only.2
    { url := "https://example.com/", pathname := "/", destination := "document" }
    [(STATIC_CACHE_NAME,
        [(getKey "https://example.com/", { status := 200, statusText := "OK", body := "static" })]),
      (DYNAMIC_CACHE_NAME,
        [(getKey "https://example.com/", { status := 200, statusText := "OK", body := "dynamic" })])]
    none { status := 200, statusText := "OK", body := "dynamic" } (by decide)

/-! ## Frame of the strategies -/

theorem CacheStorage.entries_put_other (s : CacheStorage) (n m : String) (k : RequestKey)
    (r : Response) (h : m ≠ n) : (s.put n k r).entries m = s.entries m := by
  induction s with
  | nil => rfl
  | cons p t ih =>
    simp only [CacheStorage.entries, CacheStorage.put, List.map_cons] at ih ⊢
    by_cases hp : p.1 = n
    · have hpm : ¬ p.1 = m := fun h' => h (h'.symm.trans hp)
      simp only [hp, if_true, List.find?_cons, hpm, decide_False] at ih ⊢
      have hnm : ¬ n = m := fun h' => h h'.symm
      simp only [hnm, decide_False]
      exact ih
    · simp only [hp, if_false, List.find?_cons]
      by_cases hpm : p.1 = m
      · simp [hpm]
      · simp only [hpm, decide_False]
        exact ih

theorem CacheStorage.keys_put (s : CacheStorage) (n : String) (k : RequestKey) (r : Response) :
    (s.put n k r).keys = s.keys := by
  simp only [CacheStorage.keys, CacheStorage.put, List.map_map]
  apply List.map_congr_left
  intro p _
  by_cases hp : p.1 = n <;> simp [hp]

theorem CacheStorage.keys_open (s : CacheStorage) (n : String) :
    (s.open n).keys = s.keys ∨ (s.open n).keys = s.keys ++ [n] := by
  unfold CacheStorage.open
  by_cases h : s.has n = true
  · left; simp [h]
  · right; simp [h, CacheStorage.keys]

/-- The caches a strategy leaves are the given ones, possibly after `caches.open` of the
dynamic cache, possibly after a `put` under the request's key into it. -/
theorem Strategy.run_caches_cases (s : Strategy) (request : Request) (caches : CacheStorage)
    (net : Option Response) :
    (s.run request caches net).caches = caches ∨
    (s.run request caches net).caches = caches.open DYNAMIC_CACHE_NAME ∨
    ∃ r, (s.run request caches net).caches =
      (caches.open DYNAMIC_CACHE_NAME).put DYNAMIC_CACHE_NAME request.key r := by
  cases s with
  | NetworkFirst =>
    simp only [Strategy.run, networkFirstStrategy]
    cases net with
    | none => cases caches.match request.key <;> exact Or.inl rfl
    | some r =>
      by_cases hr : r.ok = true
      · simp only [hr, if_true]; exact Or.inr (Or.inr ⟨_, rfl⟩)
      · simp only [hr, if_false]; exact Or.inl rfl
  | CacheFirst =>
    simp only [Strategy.run, cacheFirstStrategy]
    cases caches.match request.key with
    | some c => exact Or.inl rfl
    | none =>
      cases net with
      | none => exact Or.inl rfl
      | some r =>
        by_cases hr : r.ok = true
        · simp only [hr, if_true]; exact Or.inr (Or.inr ⟨_, rfl⟩)
        · simp only [hr, if_false]; exact Or.inl rfl
  | StaleWhileRevalidate =>
    simp only [Strategy.run, staleWhileRevalidateStrategy]
    cases net with
    | none => exact Or.inr (Or.inl rfl)
    | some r =>
      by_cases hr : r.ok = true
      · simp only [hr, if_true]; exact Or.inr (Or.inr ⟨_, rfl⟩)
      · simp only [hr, if_false]; exact Or.inr (Or.inl rfl)

/-- C17: a call of any of the three strategies changes at most what the dynamic cache holds
under the request's key: every cache of another name, the static cache among them, keeps
its entries; every other key of the dynamic cache keeps its entry; and no cache is deleted,
the list of names being the same or extended by the dynamic name. -/
theorem C17_strategies_frame (s : Strategy) (request : Request) (caches : CacheStorage)
    (net : Option Response) :
    (∀ n, n ≠ DYNAMIC_CACHE_NAME →
      (s.run request caches net).caches.entries n = caches.entries n) ∧
    (s.run request caches net).caches.entries STATIC_CACHE_NAME =
      caches.entries STATIC_CACHE_NAME ∧
    (∀ k, k ≠ request.key →
      Cache.match ((s.run request caches net).caches.entries DYNAMIC_CACHE_NAME) k =
        Cache.match (caches.entries DYNAMIC_CACHE_NAME) k) ∧
    ((s.run request caches net).caches.keys = caches.keys ∨
      (s.run request caches net).caches.keys = caches.keys ++ [DYNAMIC_CACHE_NAME]) := by
  have hother : ∀ n, n ≠ DYNAMIC_CACHE_NAME →
      (s.run request caches net).caches.entries n = caches.entries n := by
    intro n hn
    rcases Strategy.run_caches_cases s request caches net with h | h | ⟨r, h⟩
    · rw [h]
    · rw [h, CacheStorage.entries_open_any]
    · rw [h, CacheStorage.entries_put_other _ _ _ _ _ hn, CacheStorage.entries_open_any]
  refine ⟨hother, hother STATIC_CACHE_NAME (by decide), ?_, ?_⟩
  · intro k hk
    rcases Strategy.run_caches_cases s request caches net with h | h | ⟨r, h⟩
    · rw [h]
    · rw [h, CacheStorage.entries_open_any]
    · rw [h, CacheStorage.entries_put _ _ _ _ (CacheStorage.has_open caches DYNAMIC_CACHE_NAME),
        Cache.match_put_other _ _ _ _ hk, CacheStorage.entries_open_any]
  · rcases Strategy.run_caches_cases s request caches net with h | h | ⟨r, h⟩
    · rw [h]; exact Or.inl rfl
    · rw [h]; exact CacheStorage.keys_open caches DYNAMIC_CACHE_NAME
    · rw [h, CacheStorage.keys_put]; exact CacheStorage.keys_open caches DYNAMIC_CACHE_NAME

theorem C17_strategies_frame_witness :
    CacheStorage.entries
      (Strategy.run Strategy.NetworkFirst
        { url := "https://example.com/api/x", pathname := "/api/x", destination := "" }
        [("old-v0", [(getKey "https://example.com/api/x", { status := 200, statusText := "OK", body := "o" })]),
          (DYNAMIC_CACHE_NAME, [(getKey "https://example.com/b", { status := 200, statusText := "OK", body := "b" })])]
        (some { status := 200, statusText := "OK", body := "x" })).caches "old-v0" =
      [(getKey "https://example.com/api/x", { status := 200, statusText := "OK", body := "o" })] ∧
    Cache.match
      (CacheStorage.entries
        (Strategy.run Strategy.NetworkFirst
          { url := "https://example.com/api/x", pathname := "/api/x", destination := "" }
          [("old-v0", [(getKey "https://example.com/api/x", { status := 200, statusText := "OK", body := "o" })]),
            (DYNAMIC_CACHE_NAME, [(getKey "https://example.com/b", { status := 200, statusText := "OK", body := "b" })])]
          (some { status := 200, statusText := "OK", body := "x" })).caches DYNAMIC_CACHE_NAME)
      (getKey "https://example.com/b") = some { status := 200, statusText := "OK", body := "b" } :=
  have h := C17_strategies_frame Strategy.NetworkFirst
    { url := "https://example.com/api/x", pathname := "/api/x", destination := "" }
    [("old-v0", [(getKey "https://example.com/api/x", { status := 200, statusText := "OK", body := "o" })]),
      (DYNAMIC_CACHE_NAME, [(getKey "https://example.com/b", { status := 200, statusText := "OK", body := "b" })])]
    (some { status := 200, statusText := "OK", body := "x" })
  ⟨h.1 "old-v0" (by decide), h.2.2.1 (getKey "https://example.com/b") (by decide)⟩

/-! ## The two cleanups -/

/-- C18: the periodic cleanup is subsumed by the cleanup of the activate handler: every
name the periodic cleanup deletes is deleted by activation, running the periodic cleanup
on the result of activation deletes nothing, and each cleanup run twice gives what it
gives run once. -/
theorem C18_periodic_cleanup_subsumed_and_idempotent (staticName dynamicName : String)
    (caches : CacheStorage) :
    deletedNames caches (periodicCleanup staticName dynamicName caches) ⊆
      deletedNames caches (activateCleanup staticName dynamicName caches) ∧
    periodicCleanup staticName dynamicName (activateCleanup staticName dynamicName caches) =
      activateCleanup staticName dynamicName caches ∧
    deletedNames (activateCleanup staticName dynamicName caches)
      (periodicCleanup staticName dynamicName (activateCleanup staticName dynamicName caches))
        = [] ∧
    activateCleanup staticName dynamicName (activateCleanup staticName dynamicName caches) =
      activateCleanup staticName dynamicName caches ∧
    periodicCleanup staticName dynamicName (periodicCleanup staticName dynamicName caches) =
      periodicCleanup staticName dynamicName caches ∧
    cleanupCallback (activateHandler caches).caches = (activateHandler caches).caches := by
  have hsub : ∀ s d : String, ∀ c : CacheStorage,
      periodicCleanup s d (activateCleanup s d c) = activateCleanup s d c := by
    intro s d c
    rw [periodicCleanup_eq_filter, List.filter_eq_self]
    intro q hq
    rw [activateCleanup_eq_filter] at hq
    have hq2 := (List.mem_filter.mp hq).2
    simp only [decide_eq_true_eq] at hq2
    rcases hq2 with h | h <;> simp [h]
  refine ⟨?_, hsub _ _ _, ?_, ?_, ?_, hsub _ _ _⟩
  · intro n hn
    have hper := CacheStorage.has_filter_name
      (fun m => !decide (includes m "-v" = true ∧ m ≠ staticName ∧ m ≠ dynamicName)) caches n
    have hact := CacheStorage.has_filter_name
      (fun m => decide (m = staticName ∨ m = dynamicName)) caches n
    rw [periodicCleanup_eq_filter] at hn
    rw [activateCleanup_eq_filter]
    simp only [deletedNames, List.mem_filter, hper, hact] at hn ⊢
    refine ⟨hn.1, ?_⟩
    have hhas : CacheStorage.has caches n = true := by
      obtain ⟨q, hq, hqn⟩ := List.mem_map.mp hn.1
      simp only [CacheStorage.has, List.any_eq_true, decide_eq_true_eq]
      exact ⟨q, hq, hqn⟩
    have hdel := hn.2
    simp only [hhas, Bool.true_and, Bool.not_not, decide_eq_true_eq] at hdel
    simp [hdel.2.1, hdel.2.2]
  · rw [hsub]
    simp only [deletedNames, List.filter_eq_nil_iff]
    intro n hn
    obtain ⟨q, hq, hqn⟩ := List.mem_map.mp hn
    have : CacheStorage.has (activateCleanup staticName dynamicName caches) n = true := by
      simp only [CacheStorage.has, List.any_eq_true, decide_eq_true_eq]
      exact ⟨q, hq, hqn⟩
    simp [this]
  · rw [activateCleanup_eq_filter, activateCleanup_eq_filter, List.filter_eq_self]
    intro q hq
    exact (List.mem_filter.mp hq).2
  · rw [periodicCleanup_eq_filter, periodicCleanup_eq_filter, List.filter_eq_self]
    intro q hq
    exact (List.mem_filter.mp hq).2

end ServiceWorker
